import Mathlib

/-!
Shallow embedding of `src/reddit.py` (Reddit Search Toolkit for Open WebUI).

The repository is a single-file integration shim exposing two handlers,
`Tools.search` and `Tools.get_top_comments`, plus a status-emission helper
`Tools._emit_status` and a pydantic settings class `Tools.Valves`.

Modelling conventions:
- Decoded JSON values are the inductive `Reddit.Json`.  Python's `None`
  and JSON `null` both decode to `None`; both are `Json.null` here.
  Decoded JSON objects have unique keys (Python's `json` keeps the last
  duplicate at decode time), represented as an association list.
- Python exceptions are the error type `Reddit.PyErr`; fallible code runs
  in `Except PyErr`.
- The single upstream HTTP response consumed by a handler call is modelled
  as `Reddit.HttpResponse`: its status code, and `body = some j` when the
  body text decodes to the JSON value `j`, `none` when `.json()` would
  raise a JSON decode error.
- `requests.Response.raise_for_status` raises exactly for status codes in
  [400, 600) (4xx client errors and 5xx server errors); this is
  `Reddit.raiseForStatus`.
- Machine integers do not overflow in this program (Python ints are
  unbounded), so numbers are `Int`/`Nat`.
-/

namespace Reddit

/-- A decoded JSON value (the result of `response.json()`), as manipulated
by the Python code. `null` also stands for Python `None`. -/
inductive Json where
  | null
  | bool (b : Bool)
  | num (n : Int)
  | str (s : String)
  | arr (elems : List Json)
  | obj (fields : List (String × Json))

/-- Python exceptions that the code under `src/reddit.py` can raise. -/
inductive PyErr where
  /-- `requests.Response.raise_for_status` on a 4xx/5xx response. -/
  | httpError (status : Nat)
  /-- `requests.exceptions.JSONDecodeError` from `response.json()`. -/
  | jsonDecodeError
  /-- `AttributeError`: calling `.get` on a non-dict value. -/
  | attributeError
  /-- `TypeError`: `len()` of, or iteration over, an unsized value. -/
  | typeError
  /-- `IndexError`: list/str subscript out of range. -/
  | indexError
  /-- `KeyError`: dict subscript with an absent key. -/
  | keyError
  /-- An exception raised by the host-supplied event-emitter callback. -/
  | callbackError (msg : String)
deriving DecidableEq

/-! ## Python primitive semantics used by the code -/

/-- `d.get(key, default)` on a decoded-JSON value: returns the mapped value
(or the default when the key is absent) when `d` is a dict, and raises
`AttributeError` otherwise (lists, strings, numbers, `None` have no `.get`). -/
def pyGet (d : Json) (key : String) (default : Json) : Except PyErr Json :=
  match d with
  | .obj fields => .ok ((fields.lookup key).getD default)
  | _ => .error .attributeError

/-- `fields.get(key)` on a dict known to be a dict: Python's one-argument
`dict.get`, whose default is `None`. -/
def objGetD (fields : List (String × Json)) (key : String) : Json :=
  (fields.lookup key).getD Json.null

/-- `len(x)` on a decoded-JSON value: defined for lists, dicts and strings,
`TypeError` otherwise. -/
def pyLen : Json → Except PyErr Nat
  | .arr xs => .ok xs.length
  | .obj fields => .ok fields.length
  | .str s => .ok s.length
  | _ => .error .typeError

/-- `x[i]` with a non-negative integer index on a decoded-JSON value.
Lists and strings index positionally (`IndexError` out of range); a dict
subscripted with an integer raises `KeyError` since decoded-JSON dict keys
are strings; other values raise `TypeError`. -/
def pySubscript (x : Json) (i : Nat) : Except PyErr Json :=
  match x with
  | .arr xs =>
    match xs[i]? with
    | some v => .ok v
    | none => .error .indexError
  | .str s =>
    match s.toList[i]? with
    | some c => .ok (.str (String.mk [c]))
    | none => .error .indexError
  | .obj _ => .error .keyError
  | _ => .error .typeError

/-- `for x in v`: iterating a decoded-JSON value. Lists yield their
elements, dicts yield their keys, strings yield one-character strings,
and other values raise `TypeError`. -/
def pyIter : Json → Except PyErr (List Json)
  | .arr xs => .ok xs
  | .obj fields => .ok (fields.map fun kv => Json.str kv.1)
  | .str s => .ok (s.toList.map fun c => Json.str (String.mk [c]))
  | _ => .error .typeError

/-- Python `str()` of a decoded-JSON value, as interpolated into the url
f-string on line 183: `None → "None"`, booleans → `"True"`/`"False"`,
ints → decimal, strings → themselves.  For list/dict values Python would
render the container's repr; no claim depends on that case, so it is
rendered here as a fixed placeholder tag. -/
def pyStr : Json → String
  | .null => "None"
  | .bool true => "True"
  | .bool false => "False"
  | .num n => toString n
  | .str s => s
  | .arr _ => "[container-repr]"
  | .obj _ => "[container-repr]"

/-- `child.get("kind") == "t1"` (line 258): Python `==` between the looked-up
value and the string literal.  Equal strings compare equal; a value of any
other type compares unequal to a string. -/
def isT1Tag : Json → Bool
  | .str s => s = "t1"
  | _ => false

/-- The ASCII whitespace characters `int()` strips from both ends of its
argument (Python also strips some unicode spaces; the claims only involve
ASCII input). -/
def isPySpace (c : Char) : Bool :=
  c = ' ' || c = '\t' || c = '\n' || c = '\r' || c = '\x0b' || c = '\x0c'

/-- Digit-sequence part of Python `int()`: one or more ASCII digits, with
single underscores allowed between digits (`"1_0"` parses, `"1__0"`,
`"1_"` do not). `acc` is the value of the digits consumed so far. -/
def parseDigitsGo (acc : Nat) : List Char → Option Nat
  | [] => some acc
  | c :: rest =>
    if c = '_' then
      match rest with
      | [] => none
      | d :: rest2 =>
        if d.isDigit then parseDigitsGo (acc * 10 + (d.toNat - 48)) rest2 else none
    else if c.isDigit then parseDigitsGo (acc * 10 + (c.toNat - 48)) rest
    else none

/-- Parse a nonempty unsigned digit sequence; `none` on empty input or any
non-digit. -/
def parseDigits : List Char → Option Nat
  | [] => none
  | c :: rest =>
    if c.isDigit then parseDigitsGo (c.toNat - 48) rest else none

/-- Python `int(s)` on a string: strips whitespace from both ends, accepts
one optional sign followed by a digit sequence, and raises `ValueError`
(here `none`) on anything else. -/
def pyInt (s : String) : Option Int :=
  let core := (((s.toList.dropWhile isPySpace).reverse.dropWhile isPySpace).reverse)
  match core with
  | '-' :: rest => (parseDigits rest).map fun n => -(n : Int)
  | '+' :: rest => (parseDigits rest).map fun n => (n : Int)
  | _ => (parseDigits core).map fun n => (n : Int)

/-! ## Configuration (`Tools.Valves`, lines 45-57)

Pydantic validates `max_results` against `ge=1, le=150` at construction and
rejects the settings otherwise (the plugin fails to start), so every live
`Valves` value carries those bounds.  The field defaults are the `Field`
defaults from the source. -/

structure Valves where
  user_agent : String := "Mozilla/5.0 (RedditSearchToolkit/0.1.0)"
  max_results : Int := 80
  max_results_ge : 1 ≤ max_results := by decide
  max_results_le : max_results ≤ 150 := by decide

/-! ## Limit / count resolution -/

/-- Lines 145-157: resolution of the `limit` string for `Tools.search`.
`if limit and limit != "-1"` takes the parse branch exactly when the string
is nonempty and not the sentinel; `int(limit)` raising `ValueError` is
caught and falls through to the default, as does a parsed value outside
`[1, 150]`. -/
def resolveLimit (lim : String) (max_results : Int) : Int :=
  if lim ≠ "" ∧ lim ≠ "-1" then
    match pyInt lim with
    | some parsed_limit =>
      if 1 ≤ parsed_limit ∧ parsed_limit ≤ 150 then parsed_limit else max_results
    | none => max_results
  else max_results

/-- Lines 225-236: resolution of the `num_comments` string for
`Tools.get_top_comments`.  Empty string, unparsable string, and
non-positive parsed values all fall back to 10; no upper bound. -/
def resolveNumComments (num_comments : String) : Int :=
  if num_comments ≠ "" then
    match pyInt num_comments with
    | some parsed => if 0 < parsed then parsed else 10
    | none => 10
  else 10

/-! ## Records, status events, HTTP responses -/

/-- The `data` part of a status event emitted via `_emit_status` (the
payload's `"type"` is the constant `"status"`). -/
structure StatusData where
  description : String
  done : Bool
  hidden : Bool
deriving DecidableEq

/-- A post record appended at lines 179-188: the five pass-through fields
plus the rewritten absolute `url`. -/
structure Post where
  title : Json
  subreddit : Json
  url : String
  score : Json
  num_comments : Json
  created_utc : Json

/-- A comment record appended at lines 260-266. -/
structure Comment where
  author : Json
  body : Json
  score : Json

/-- The query parameters of the search GET (lines 161-168). -/
structure SearchParams where
  q : String
  sort : String
  t : String
  limit : Int
  restrict_sr : Bool
  type : String

/-- The upstream HTTP response consumed by one handler call: its status
code and, when the body text is valid JSON, the decoded value
(`body = none` models a body on which `response.json()` raises). -/
structure HttpResponse where
  status : Nat
  body : Option Json

/-- `response.raise_for_status()`: requests raises `HTTPError` exactly for
status codes in [400, 500) (client error) and [500, 600) (server error). -/
def raiseForStatus (resp : HttpResponse) : Except PyErr Unit :=
  if 400 ≤ resp.status ∧ resp.status < 600 then .error (.httpError resp.status)
  else .ok ()

/-! ## Status emitter (`Tools._emit_status`, lines 83-108)

The handlers' observable status traffic is recorded in the outcome
structures below; `emit_status` itself is modelled separately for the
emitter claims.  A host callback takes the status payload and either
returns a value (`.ok`) or raises (`.error`).  An awaitable return value
carries the result its coroutine would produce when awaited/run. -/

/-- The value returned by a host event-emitter callback: either a plain
(non-awaitable) value, or an awaitable whose execution yields `run`. -/
inductive EmitterReturn where
  | plain
  | awaitable (run : Except PyErr Unit)

/-- Lines 83-108.  `loopRunning` is whether `asyncio.create_task` finds a
running event loop: when it does, the awaitable is scheduled
fire-and-forget (exceptions inside the task do not propagate here); when it
does not (`RuntimeError`), the fallback `asyncio.run` drives the coroutine
to completion and propagates its result.  The callback call itself
(line 98) is not guarded by any `try`, so a callback that raises
propagates. -/
def emit_status (loopRunning : Bool)
    (emitter : Option (StatusData → Except PyErr EmitterReturn))
    (description : String) (done : Bool) (hidden : Bool) :
    Except PyErr Unit :=
  match emitter with
  | none => .ok ()
  | some f =>
    match f ⟨description, done, hidden⟩ with
    | .error e => .error e
    | .ok .plain => .ok ()
    | .ok (.awaitable run) => if loopRunning then .ok () else run

/-! ## Search handler (`Tools.search`, lines 113-197) -/

/-- Lines 177-188: the body of the loop over `data["data"]["children"]`,
building one post record from one child.  `child.get("data", {})` raises
if the child is not a dict; the six field lookups then all succeed (with
`None` defaults) when the data value is a dict, and the first of them
raises `AttributeError` when it is not. -/
def mkPost (child : Json) : Except PyErr Post :=
  match pyGet child "data" (Json.obj []) with
  | .error e => .error e
  | .ok (.obj fs) =>
    .ok { title := objGetD fs "title"
          subreddit := objGetD fs "subreddit"
          url := "https://www.reddit.com" ++ pyStr (objGetD fs "permalink")
          score := objGetD fs "score"
          num_comments := objGetD fs "num_comments"
          created_utc := objGetD fs "created_utc" }
  | .ok _ => .error .attributeError

/-- Lines 176-190: the accumulation loop of `search`.  `len` is the length
of `posts` so far; after each append the code breaks when
`len(posts) >= actual_limit`. -/
def postsFrom (actual_limit : Int) : Nat → List Json → Except PyErr (List Post)
  | _, [] => .ok []
  | len, child :: rest =>
    match mkPost child with
    | .error e => .error e
    | .ok p =>
      if (len : Int) + 1 ≥ actual_limit then .ok [p]
      else
        match postsFrom actual_limit (len + 1) rest with
        | .error e => .error e
        | .ok ps => .ok (p :: ps)

/-- Line 177: `data.get("data", {}).get("children", [])`, then the `for`
iteration over the result. -/
def searchChildren (data : Json) : Except PyErr (List Json) :=
  match pyGet data "data" (Json.obj []) with
  | .error e => .error e
  | .ok d =>
    match pyGet d "children" (Json.arr []) with
    | .error e => .error e
    | .ok c => pyIter c

/-- What a successful `search` call produces: the query parameters of the
GET it issued, the status events it emitted, and the returned post list. -/
structure SearchOutcome where
  params : SearchParams
  statuses : List StatusData
  posts : List Post

/-- `Tools.search` (lines 113-197) on one upstream response.  Emits the
start status, resolves the limit, issues the GET (whose parameters are
recorded in the outcome), calls `raise_for_status`, decodes the body
(`response.json()` raises on invalid JSON — there is no recovery path
here), shapes and truncates the children, emits the done status. -/
def search (v : Valves) (query sort time_window lim : String)
    (resp : HttpResponse) : Except PyErr SearchOutcome :=
  let startStatus : StatusData :=
    ⟨"Searching Reddit for ‘" ++ query ++ "’…", false, false⟩
  let actual_limit : Int := resolveLimit lim v.max_results
  let params : SearchParams := ⟨query, sort, time_window, actual_limit, false, "link"⟩
  match raiseForStatus resp with
  | .error e => .error e
  | .ok _ =>
    match resp.body with
    | none => .error .jsonDecodeError
    | some data =>
      match searchChildren data with
      | .error e => .error e
      | .ok children =>
        match postsFrom actual_limit 0 children with
        | .error e => .error e
        | .ok posts =>
          .ok ⟨params,
               [startStatus,
                ⟨"Retrieved " ++ toString posts.length ++ " posts.", true, false⟩],
               posts⟩

/-! ## Comment handler (`Tools.get_top_comments`, lines 199-272) -/

/-- `post_url.rstrip("/")`: remove every trailing slash. -/
def rstripSlashes (s : String) : String :=
  String.mk ((s.toList.reverse.dropWhile (· = '/')).reverse)

/-- Lines 259-266: building one comment record from a `t1` child. -/
def mkComment (child : Json) : Except PyErr Comment :=
  match pyGet child "data" (Json.obj []) with
  | .error e => .error e
  | .ok (.obj fs) =>
    .ok { author := objGetD fs "author"
          body := objGetD fs "body"
          score := objGetD fs "score" }
  | .ok _ => .error .attributeError

/-- Lines 257-268: the accumulation loop of `get_top_comments` over the
children of the comment tree.  Only children whose `kind` is the string
`"t1"` contribute; after each append the code breaks when
`len(comments) >= actual_num_comments`. -/
def commentsFrom (actual_num_comments : Int) :
    Nat → List Json → Except PyErr (List Comment)
  | _, [] => .ok []
  | len, child :: rest =>
    match pyGet child "kind" Json.null with
    | .error e => .error e
    | .ok kind =>
      if isT1Tag kind then
        match mkComment child with
        | .error e => .error e
        | .ok k =>
          if (len : Int) + 1 ≥ actual_num_comments then .ok [k]
          else
            match commentsFrom actual_num_comments (len + 1) rest with
            | .error e => .error e
            | .ok ks => .ok (k :: ks)
      else commentsFrom actual_num_comments len rest

/-- Line 257: `payload[1].get("data", {}).get("children", [])`, then the
`for` iteration over the result. -/
def commentChildren (second : Json) : Except PyErr (List Json) :=
  match pyGet second "data" (Json.obj []) with
  | .error e => .error e
  | .ok d =>
    match pyGet d "children" (Json.arr []) with
    | .error e => .error e
    | .ok c => pyIter c

/-- What a successful `get_top_comments` call produces: the URL it hit,
the `limit` query parameter it sent (`depth` is the constant 1), the
status events it emitted, and the returned comment list. -/
structure CommentsOutcome where
  json_url : String
  params_limit : Int
  statuses : List StatusData
  comments : List Comment

/-- `Tools.get_top_comments` (lines 199-272) on one upstream response.
Emits the start status, resolves the count, builds the `.json` URL, issues
the GET, calls `raise_for_status`, and decodes the body — a decode failure
is caught (lines 247-253): a hidden done status is emitted and the empty
list returned.  On success, when the payload has more than one element the
second element's children are shaped, filtered to `kind == "t1"` and
truncated; the done status is emitted last. -/
def get_top_comments (v : Valves) (post_url num_comments : String)
    (resp : HttpResponse) : Except PyErr CommentsOutcome :=
  let startStatus : StatusData := ⟨"Fetching comments…", false, false⟩
  let actual_num_comments : Int := resolveNumComments num_comments
  let json_url : String := rstripSlashes post_url ++ ".json"
  match raiseForStatus resp with
  | .error e => .error e
  | .ok _ =>
    match resp.body with
    | none =>
      .ok ⟨json_url, actual_num_comments,
           [startStatus,
            ⟨"Could not fetch comments for " ++ post_url ++ " (invalid format).",
             true, true⟩],
           []⟩
    | some payload =>
      match pyLen payload with
      | .error e => .error e
      | .ok n =>
        match
          (if 1 < n then
             match pySubscript payload 1 with
             | .error e => .error e
             | .ok second =>
               match commentChildren second with
               | .error e => .error e
               | .ok children => commentsFrom actual_num_comments 0 children
           else .ok [] : Except PyErr (List Comment)) with
        | .error e => .error e
        | .ok comments =>
          .ok ⟨json_url, actual_num_comments,
               [startStatus,
                ⟨"Returned " ++ toString comments.length ++ " comments.",
                 true, false⟩],
               comments⟩

/-! ## Helper lemmas -/

theorem resolveLimit_ge_one (s : String) (d : Int) (hd : 1 ≤ d) :
    1 ≤ resolveLimit s d := by
  unfold resolveLimit
  split
  · split
    · split
      · rename_i hb
        exact hb.1
      · exact hd
    · exact hd
  · exact hd

theorem resolveNumComments_ge_one (s : String) : 1 ≤ resolveNumComments s := by
  unfold resolveNumComments
  split
  · split
    · split
      · rename_i hb
        omega
      · omega
    · omega
  · omega

theorem isT1Tag_eq_true_iff (kind : Json) :
    isT1Tag kind = true ↔ kind = Json.str "t1" := by
  cases kind <;> simp [isT1Tag]

theorem raiseForStatus_ok_iff (resp : HttpResponse) :
    raiseForStatus resp = .ok () ↔ ¬(400 ≤ resp.status ∧ resp.status < 600) := by
  unfold raiseForStatus
  by_cases hs : 400 ≤ resp.status ∧ resp.status < 600
  · simp [hs]
  · simp [hs]

theorem raiseForStatus_err (resp : HttpResponse)
    (hs : 400 ≤ resp.status ∧ resp.status < 600) :
    raiseForStatus resp = .error (.httpError resp.status) := by
  unfold raiseForStatus
  rw [if_pos hs]

theorem postsFrom_ok_length_le (actual_limit : Int) :
    ∀ (cs : List Json) (len : Nat) (ps : List Post),
      (len : Int) < actual_limit →
      postsFrom actual_limit len cs = .ok ps →
      (ps.length : Int) + len ≤ actual_limit := by
  intro cs
  induction cs with
  | nil =>
    intro len ps hlt h
    simp only [postsFrom] at h
    cases h
    simp only [List.length_nil, Nat.cast_zero]
    omega
  | cons child rest ih =>
    intro len ps hlt h
    simp only [postsFrom] at h
    split at h
    · cases h
    · split at h
      · rename_i hge
        cases h
        simp only [List.length_singleton, Nat.cast_one]
        omega
      · rename_i hge
        split at h
        · cases h
        · rename_i ps' hrec
          cases h
          have hih := ih (len + 1) ps' (by omega) hrec
          simp only [List.length_cons]
          push_cast
          push_cast at hih
          omega

theorem postsFrom_ok_length_eq (actual_limit : Int) :
    ∀ (cs : List Json) (len : Nat) (ps : List Post),
      (len : Int) < actual_limit →
      actual_limit ≤ (cs.length : Int) + len →
      postsFrom actual_limit len cs = .ok ps →
      (ps.length : Int) + len = actual_limit := by
  intro cs
  induction cs with
  | nil =>
    intro len ps hlt hle h
    simp only [postsFrom] at h
    cases h
    simp only [List.length_nil, Nat.cast_zero] at hle
    omega
  | cons child rest ih =>
    intro len ps hlt hle h
    simp only [postsFrom] at h
    split at h
    · cases h
    · split at h
      · rename_i hge
        cases h
        simp only [List.length_singleton, Nat.cast_one]
        omega
      · rename_i hge
        split at h
        · cases h
        · rename_i ps' hrec
          cases h
          simp only [List.length_cons] at hle
          have hih := ih (len + 1) ps' (by omega) (by push_cast at hle ⊢; omega) hrec
          simp only [List.length_cons]
          push_cast
          push_cast at hih
          omega

theorem postsFrom_ok_idx (actual_limit : Int) :
    ∀ (cs : List Json) (len : Nat) (ps : List Post),
      postsFrom actual_limit len cs = .ok ps →
      ∀ (i : Nat) (p : Post), ps[i]? = some p →
        ∃ c, cs[i]? = some c ∧ mkPost c = .ok p := by
  intro cs
  induction cs with
  | nil =>
    intro len ps h i p hp
    simp only [postsFrom] at h
    cases h
    simp at hp
  | cons child rest ih =>
    intro len ps h i p hp
    simp only [postsFrom] at h
    split at h
    · cases h
    · rename_i p0 hmk
      split at h
      · cases h
        cases i with
        | zero =>
          simp only [List.getElem?_cons_zero, Option.some.injEq] at hp
          subst hp
          exact ⟨child, by simp, hmk⟩
        | succ j => simp at hp
      · split at h
        · cases h
        · rename_i ps' hrec
          cases h
          cases i with
          | zero =>
            simp only [List.getElem?_cons_zero, Option.some.injEq] at hp
            subst hp
            exact ⟨child, by simp, hmk⟩
          | succ j =>
            simp only [List.getElem?_cons_succ] at hp
            obtain ⟨c, hc, hmkc⟩ := ih (len + 1) ps' hrec j p hp
            exact ⟨c, by simpa using hc, hmkc⟩

theorem commentsFrom_ok_length_le (cnt : Int) :
    ∀ (cs : List Json) (len : Nat) (ks : List Comment),
      (len : Int) < cnt →
      commentsFrom cnt len cs = .ok ks →
      (ks.length : Int) + len ≤ cnt := by
  intro cs
  induction cs with
  | nil =>
    intro len ks hlt h
    simp only [commentsFrom] at h
    cases h
    simp only [List.length_nil, Nat.cast_zero]
    omega
  | cons child rest ih =>
    intro len ks hlt h
    simp only [commentsFrom] at h
    split at h
    · cases h
    · split at h
      · split at h
        · cases h
        · split at h
          · rename_i hge
            cases h
            simp only [List.length_singleton, Nat.cast_one]
            omega
          · rename_i hge
            split at h
            · cases h
            · rename_i ks' hrec
              cases h
              have hih := ih (len + 1) ks' (by omega) hrec
              simp only [List.length_cons]
              push_cast
              push_cast at hih
              omega
      · exact ih len ks hlt h

theorem commentsFrom_ok_mem (cnt : Int) :
    ∀ (cs : List Json) (len : Nat) (ks : List Comment),
      commentsFrom cnt len cs = .ok ks →
      ∀ k ∈ ks, ∃ c ∈ cs,
        pyGet c "kind" Json.null = .ok (Json.str "t1") ∧ mkComment c = .ok k := by
  intro cs
  induction cs with
  | nil =>
    intro len ks h k hk
    simp only [commentsFrom] at h
    cases h
    simp at hk
  | cons child rest ih =>
    intro len ks h k hkmem
    simp only [commentsFrom] at h
    split at h
    · cases h
    · rename_i kind hk
      split at h
      · rename_i ht
        have hkind : kind = Json.str "t1" := (isT1Tag_eq_true_iff kind).mp ht
        subst hkind
        split at h
        · cases h
        · rename_i k0 hmk
          split at h
          · cases h
            simp only [List.mem_singleton] at hkmem
            subst hkmem
            exact ⟨child, List.mem_cons_self _ _, hk, hmk⟩
          · split at h
            · cases h
            · rename_i ks' hrec
              cases h
              rcases List.mem_cons.mp hkmem with hk0 | hmem
              · subst hk0
                exact ⟨child, List.mem_cons_self _ _, hk, hmk⟩
              · obtain ⟨c, hcmem, hct1, hcmk⟩ := ih (len + 1) ks' hrec k hmem
                exact ⟨c, List.mem_cons_of_mem _ hcmem, hct1, hcmk⟩
      · obtain ⟨c, hcmem, hct1, hcmk⟩ := ih len ks h k hkmem
        exact ⟨c, List.mem_cons_of_mem _ hcmem, hct1, hcmk⟩

theorem commentsFrom_skip (cnt : Int) (len : Nat) (child : Json)
    (rest : List Json) (kind : Json)
    (hk : pyGet child "kind" Json.null = .ok kind)
    (hne : kind ≠ Json.str "t1") :
    commentsFrom cnt len (child :: rest) = commentsFrom cnt len rest := by
  have ht : ¬ (isT1Tag kind = true) := by
    simpa [isT1Tag_eq_true_iff] using hne
  simp only [commentsFrom]
  split
  · rename_i e heq
    rw [hk] at heq
    cases heq
  · rename_i kind' heq
    rw [hk] at heq
    cases heq
    rw [if_neg ht]

/-- Inversion of a successful `search` call: the response had a status
`raise_for_status` accepts, a JSON-decodable body whose children were
extracted, and the outcome records the sent parameters and the two status
events. -/
theorem search_ok_inv (v : Valves) (query sort time_window lim : String)
    (resp : HttpResponse) (out : SearchOutcome)
    (h : search v query sort time_window lim resp = .ok out) :
    ¬(400 ≤ resp.status ∧ resp.status < 600) ∧
    ∃ data children,
      resp.body = some data ∧
      searchChildren data = .ok children ∧
      postsFrom (resolveLimit lim v.max_results) 0 children = .ok out.posts ∧
      out.params = ⟨query, sort, time_window, resolveLimit lim v.max_results,
        false, "link"⟩ ∧
      out.statuses =
        [⟨"Searching Reddit for ‘" ++ query ++ "’…", false, false⟩,
         ⟨"Retrieved " ++ toString out.posts.length ++ " posts.", true, false⟩] := by
  simp only [search] at h
  split at h
  · cases h
  · rename_i u hrs
    have hs : ¬(400 ≤ resp.status ∧ resp.status < 600) := by
      cases u
      exact (raiseForStatus_ok_iff resp).mp hrs
    refine ⟨hs, ?_⟩
    split at h
    · cases h
    · rename_i data hb
      split at h
      · cases h
      · rename_i children hc
        split at h
        · cases h
        · rename_i posts hp
          cases h
          exact ⟨data, children, hb, hc, hp, rfl, rfl⟩

/-- Inversion of a successful `get_top_comments` call. -/
theorem get_top_comments_ok_inv (v : Valves) (post_url num_comments : String)
    (resp : HttpResponse) (out : CommentsOutcome)
    (h : get_top_comments v post_url num_comments resp = .ok out) :
    ¬(400 ≤ resp.status ∧ resp.status < 600) ∧
    out.json_url = rstripSlashes post_url ++ ".json" ∧
    out.params_limit = resolveNumComments num_comments ∧
    ((resp.body = none ∧ out.comments = []) ∨
     ∃ payload n, resp.body = some payload ∧ pyLen payload = .ok n ∧
       ((1 < n ∧ ∃ second children,
           pySubscript payload 1 = .ok second ∧
           commentChildren second = .ok children ∧
           commentsFrom (resolveNumComments num_comments) 0 children
             = .ok out.comments) ∨
        (¬ 1 < n ∧ out.comments = []))) := by
  simp only [get_top_comments] at h
  split at h
  · cases h
  · rename_i u hrs
    have hs : ¬(400 ≤ resp.status ∧ resp.status < 600) := by
      cases u
      exact (raiseForStatus_ok_iff resp).mp hrs
    refine ⟨hs, ?_⟩
    split at h
    · rename_i hb
      cases h
      exact ⟨rfl, rfl, Or.inl ⟨hb, rfl⟩⟩
    · rename_i payload hb
      split at h
      · cases h
      · rename_i n hn
        split at h
        · cases h
        · rename_i comments hif
          cases h
          by_cases h1 : 1 < n
          · rw [if_pos h1] at hif
            split at hif
            · cases hif
            · rename_i second hss
              split at hif
              · cases hif
              · rename_i children hcc
                exact ⟨rfl, rfl, Or.inr ⟨payload, n, hb, hn,
                  Or.inl ⟨h1, second, children, hss, hcc, hif⟩⟩⟩
          · rw [if_neg h1] at hif
            cases hif
            exact ⟨rfl, rfl, Or.inr ⟨payload, n, hb, hn, Or.inr ⟨h1, rfl⟩⟩⟩

/-! ## Concrete fixtures used in witness checks -/

/-- A well-formed search child as the upstream returns it. -/
def stubChild (i : Nat) : Json :=
  Json.obj [("data", Json.obj
    [("title", Json.str ("post " ++ toString i)),
     ("subreddit", Json.str "cats"),
     ("permalink", Json.str ("/r/cats/comments/" ++ toString i ++ "/")),
     ("score", Json.num 10),
     ("num_comments", Json.num 3),
     ("created_utc", Json.num 1700000000)])]

/-- A search response body with `k` children. -/
def stubSearchBody (k : Nat) : Json :=
  Json.obj [("data", Json.obj [("children", Json.arr ((List.range k).map stubChild))])]

/-- A real top-level comment entry (`kind == "t1"`). -/
def t1Child : Json :=
  Json.obj [("kind", Json.str "t1"), ("data", Json.obj
    [("author", Json.str "alice"), ("body", Json.str "hello"), ("score", Json.num 5)])]

/-- A "load more" pagination stub (`kind == "more"`). -/
def moreChild : Json :=
  Json.obj [("kind", Json.str "more"), ("data", Json.obj [("children", Json.arr [])])]

/-- A comment endpoint payload: post listing first, comment tree second. -/
def stubCommentsBody : Json :=
  Json.arr [Json.obj [],
    Json.obj [("data", Json.obj [("children", Json.arr [moreChild, t1Child])])]]

/-- The post record `search` builds from `stubChild i`. -/
def stubPost (i : Nat) : Post :=
  ⟨Json.str ("post " ++ toString i), Json.str "cats",
   "https://www.reddit.com/r/cats/comments/" ++ toString i ++ "/",
   Json.num 10, Json.num 3, Json.num 1700000000⟩

/-- A 200 search response carrying 8 children. -/
def stubSearchResp8 : HttpResponse := ⟨200, some (stubSearchBody 8)⟩

/-- The outcome of `search` with limit `"5"` on `stubSearchResp8`. -/
def stubSearchOut5 : SearchOutcome :=
  ⟨⟨"cats", "relevance", "all", 5, false, "link"⟩,
   [⟨"Searching Reddit for ‘cats’…", false, false⟩,
    ⟨"Retrieved 5 posts.", true, false⟩],
   (List.range 5).map stubPost⟩

/-- The comment record built from `t1Child`. -/
def stubComment : Comment := ⟨Json.str "alice", Json.str "hello", Json.num 5⟩

/-- A 200 comment response carrying `stubCommentsBody`. -/
def stubCommentsResp : HttpResponse := ⟨200, some stubCommentsBody⟩

/-- The outcome of `get_top_comments` with count `"10"` on
`stubCommentsResp`. -/
def stubCommentsOut : CommentsOutcome :=
  ⟨"https://x/comments/1.json", 10,
   [⟨"Fetching comments…", false, false⟩,
    ⟨"Returned 1 comments.", true, false⟩],
   [stubComment]⟩

/-! ## Claim theorems -/

/-- C1: for every `limit` string passed to `search`, if the string parses to
an integer in [1,150] the effective limit (used for the request parameters,
and for truncation — see the C3 theorem) equals that integer; for every
other string (the sentinel `"-1"`, the empty string, a non-numeric string,
or one parsing outside [1,150]) the effective limit equals the configured
`max_results` default — out-of-range input is discarded entirely, never
clamped. -/
theorem limit_resolution_policy :
    (∀ (s : String) (d n : Int), pyInt s = some n → 1 ≤ n → n ≤ 150 →
       resolveLimit s d = n)
  ∧ (∀ (s : String) (d n : Int), pyInt s = some n → (n < 1 ∨ 150 < n) →
       resolveLimit s d = d)
  ∧ (∀ (s : String) (d : Int), pyInt s = none → resolveLimit s d = d)
  ∧ (∀ (v : Valves) (query sort time_window lim : String) (resp : HttpResponse)
       (out : SearchOutcome),
       search v query sort time_window lim resp = .ok out →
       out.params.limit = resolveLimit lim v.max_results) := by
  refine ⟨?_, ?_, ?_, ?_⟩
  · intro s d n hparse h1 h150
    have hne : s ≠ "" := by
      intro he
      subst he
      rw [show pyInt "" = none by decide] at hparse
      cases hparse
    have hns : s ≠ "-1" := by
      intro he
      subst he
      rw [show pyInt "-1" = some (-1) by decide] at hparse
      cases hparse
      omega
    unfold resolveLimit
    rw [if_pos ⟨hne, hns⟩]
    split
    · rename_i p hp
      rw [hparse] at hp
      cases hp
      rw [if_pos ⟨h1, h150⟩]
    · rename_i hp
      rw [hparse] at hp
      cases hp
  · intro s d n hparse hout
    by_cases hne : s = ""
    · subst hne
      rw [show pyInt "" = none by decide] at hparse
      cases hparse
    · by_cases hns : s = "-1"
      · unfold resolveLimit
        rw [if_neg (by simp [hns])]
      · unfold resolveLimit
        rw [if_pos ⟨hne, hns⟩]
        split
        · rename_i p hp
          rw [hparse] at hp
          cases hp
          rw [if_neg (by intro hc; rcases hout with hlt | hgt <;> omega)]
        · rfl
  · intro s d hparse
    by_cases hne : s = ""
    · unfold resolveLimit
      rw [if_neg (by simp [hne])]
    · by_cases hns : s = "-1"
      · unfold resolveLimit
        rw [if_neg (by simp [hns])]
      · unfold resolveLimit
        rw [if_pos ⟨hne, hns⟩]
        split
        · rename_i p hp
          rw [hparse] at hp
          cases hp
        · rfl
  · intro v query sort time_window lim resp out h
    obtain ⟨-, data, children, -, -, -, hparams, -⟩ :=
      search_ok_inv v query sort time_window lim resp out h
    rw [hparams]

/-- Witness for C1: concrete in-range, out-of-range and non-numeric limit
strings, plus a concrete successful `search` call whose sent `limit`
parameter is the resolved one. -/
theorem limit_resolution_policy_witness :
    resolveLimit "5" 80 = 5 ∧ resolveLimit "200" 80 = 80
    ∧ resolveLimit "abc" 80 = 80
    ∧ (SearchOutcome.mk ⟨"q", "relevance", "all", 7, false, "link"⟩
        [⟨"Searching Reddit for ‘q’…", false, false⟩,
         ⟨"Retrieved 0 posts.", true, false⟩] []).params.limit
      = resolveLimit "7" ({} : Valves).max_results :=
  ⟨limit_resolution_policy.1 "5" 80 5 (by decide) (by decide) (by decide),
   limit_resolution_policy.2.1 "200" 80 200 (by decide) (Or.inr (by decide)),
   limit_resolution_policy.2.2.1 "abc" 80 (by decide),
   limit_resolution_policy.2.2.2 {} "q" "relevance" "all" "7"
     ⟨200, some (Json.obj [])⟩ _ rfl⟩

/-- C2: for every `num_comments` string passed to `get_top_comments`, if
the string parses to a positive integer the effective count equals that
integer (no upper bound is enforced); for every other string (empty,
non-numeric, or parsing to zero or a negative integer) the effective count
equals 10. -/
theorem count_resolution_policy :
    (∀ (s : String) (n : Int), pyInt s = some n → 0 < n →
       resolveNumComments s = n)
  ∧ (∀ (s : String) (n : Int), pyInt s = some n → n ≤ 0 →
       resolveNumComments s = 10)
  ∧ (∀ (s : String), pyInt s = none → resolveNumComments s = 10)
  ∧ (∀ (v : Valves) (post_url num_comments : String) (resp : HttpResponse)
       (out : CommentsOutcome),
       get_top_comments v post_url num_comments resp = .ok out →
       out.params_limit = resolveNumComments num_comments) := by
  refine ⟨?_, ?_, ?_, ?_⟩
  · intro s n hparse hpos
    have hne : s ≠ "" := by
      intro he
      subst he
      rw [show pyInt "" = none by decide] at hparse
      cases hparse
    unfold resolveNumComments
    rw [if_pos hne]
    split
    · rename_i p hp
      rw [hparse] at hp
      cases hp
      rw [if_pos hpos]
    · rename_i hp
      rw [hparse] at hp
      cases hp
  · intro s n hparse hnp
    by_cases hne : s = ""
    · unfold resolveNumComments
      rw [if_neg (by simp [hne])]
    · unfold resolveNumComments
      rw [if_pos hne]
      split
      · rename_i p hp
        rw [hparse] at hp
        cases hp
        rw [if_neg (by omega)]
      · rfl
  · intro s hparse
    by_cases hne : s = ""
    · unfold resolveNumComments
      rw [if_neg (by simp [hne])]
    · unfold resolveNumComments
      rw [if_pos hne]
      split
      · rename_i p hp
        rw [hparse] at hp
        cases hp
      · rfl
  · intro v post_url num_comments resp out h
    exact (get_top_comments_ok_inv v post_url num_comments resp out h).2.2.1

/-- Witness for C2: a large positive count is kept unbounded, zero and
non-numeric fall back to 10, and a concrete successful call sends the
resolved count. -/
theorem count_resolution_policy_witness :
    resolveNumComments "1000" = 1000 ∧ resolveNumComments "0" = 10
    ∧ resolveNumComments "abc" = 10
    ∧ (CommentsOutcome.mk "https://x/comments/1.json" 3
        [⟨"Fetching comments…", false, false⟩,
         ⟨"Returned 0 comments.", true, false⟩] []).params_limit
      = resolveNumComments "3" :=
  ⟨count_resolution_policy.1 "1000" 1000 (by decide) (by decide),
   count_resolution_policy.2.1 "0" 0 (by decide) (by decide),
   count_resolution_policy.2.2.1 "abc" (by decide),
   count_resolution_policy.2.2.2 {} "https://x/comments/1/" "3"
     ⟨200, some (Json.arr [])⟩ _ rfl⟩

/-- C3: for every upstream response, the list returned by `search` has
length at most the effective limit and the list returned by
`get_top_comments` has length at most the effective count; and whenever
the search response has at least as many children as the effective limit
(in particular when it has more), exactly effective-limit post records are
returned, each built from the child at the same upstream position. -/
theorem result_length_bounds :
    (∀ (v : Valves) (query sort time_window lim : String) (resp : HttpResponse)
       (out : SearchOutcome),
       search v query sort time_window lim resp = .ok out →
       (out.posts.length : Int) ≤ resolveLimit lim v.max_results)
  ∧ (∀ (v : Valves) (post_url num_comments : String) (resp : HttpResponse)
       (out : CommentsOutcome),
       get_top_comments v post_url num_comments resp = .ok out →
       (out.comments.length : Int) ≤ resolveNumComments num_comments)
  ∧ (∀ (v : Valves) (query sort time_window lim : String) (resp : HttpResponse)
       (out : SearchOutcome),
       search v query sort time_window lim resp = .ok out →
       ∃ data children, resp.body = some data
         ∧ searchChildren data = .ok children
         ∧ (resolveLimit lim v.max_results ≤ (children.length : Int) →
              (out.posts.length : Int) = resolveLimit lim v.max_results)
         ∧ (∀ (i : Nat) (p : Post), out.posts[i]? = some p →
              ∃ c, children[i]? = some c ∧ mkPost c = .ok p)) := by
  refine ⟨?_, ?_, ?_⟩
  · intro v query sort time_window lim resp out h
    obtain ⟨-, data, children, -, -, hp, -, -⟩ :=
      search_ok_inv v query sort time_window lim resp out h
    have hge := resolveLimit_ge_one lim v.max_results v.max_results_ge
    have hlen := postsFrom_ok_length_le (resolveLimit lim v.max_results)
      children 0 out.posts (by push_cast; omega) hp
    push_cast at hlen
    omega
  · intro v post_url num_comments resp out h
    have hge := resolveNumComments_ge_one num_comments
    obtain ⟨-, -, -, hcase⟩ := get_top_comments_ok_inv v post_url num_comments resp out h
    rcases hcase with ⟨-, hempty⟩ | ⟨payload, n, -, -, hcase2⟩
    · rw [hempty]
      simp only [List.length_nil, Nat.cast_zero]
      omega
    · rcases hcase2 with ⟨-, second, children, -, -, hcf⟩ | ⟨-, hempty⟩
      · have hlen := commentsFrom_ok_length_le (resolveNumComments num_comments)
          children 0 out.comments (by push_cast; omega) hcf
        push_cast at hlen
        omega
      · rw [hempty]
        simp only [List.length_nil, Nat.cast_zero]
        omega
  · intro v query sort time_window lim resp out h
    obtain ⟨-, data, children, hb, hc, hp, -, -⟩ :=
      search_ok_inv v query sort time_window lim resp out h
    have hge := resolveLimit_ge_one lim v.max_results v.max_results_ge
    refine ⟨data, children, hb, hc, ?_, ?_⟩
    · intro hlen
      have heq := postsFrom_ok_length_eq (resolveLimit lim v.max_results)
        children 0 out.posts (by push_cast; omega) (by push_cast; omega) hp
      push_cast at heq
      omega
    · intro i p hip
      exact postsFrom_ok_idx _ children 0 out.posts hp i p hip

/-- Witness for C3: a stub search response with 8 children and limit `"5"`
yields exactly 5 posts, each from the child at the same upstream index; a
stub comment response respects the count bound. -/
theorem result_length_bounds_witness :
    ((stubSearchOut5.posts.length : Int) ≤ resolveLimit "5" ({} : Valves).max_results)
  ∧ ((stubCommentsOut.comments.length : Int) ≤ resolveNumComments "10")
  ∧ (∃ data children, stubSearchResp8.body = some data
       ∧ searchChildren data = .ok children
       ∧ (resolveLimit "5" ({} : Valves).max_results ≤ (children.length : Int) →
            (stubSearchOut5.posts.length : Int)
              = resolveLimit "5" ({} : Valves).max_results)
       ∧ (∀ (i : Nat) (p : Post), stubSearchOut5.posts[i]? = some p →
            ∃ c, children[i]? = some c ∧ mkPost c = .ok p)) :=
  ⟨result_length_bounds.1 {} "cats" "relevance" "all" "5" stubSearchResp8
     stubSearchOut5 rfl,
   result_length_bounds.2.1 {} "https://x/comments/1/" "10" stubCommentsResp
     stubCommentsOut rfl,
   result_length_bounds.2.2 {} "cats" "relevance" "all" "5" stubSearchResp8
     stubSearchOut5 rfl⟩

/-- C4 counterexample: a registered synchronous callback that throws when
invoked makes `_emit_status` propagate the exception — the call to the
callback on line 98 is not wrapped in any `try`, so the helper is not
exception-proof for every callback. -/
theorem emit_status_counterexample :
    emit_status true (some fun _ => .error (.callbackError "boom"))
      "Fetching comments…" false false
      = .error (.callbackError "boom") := rfl

/-- C4 (amended): the status-emission helper completes without raising when
no callback is registered, when the registered callback returns a
non-awaitable value without throwing, and when it returns an awaitable
while an event loop is running (fire-and-forget); but a callback that
throws when invoked propagates its exception to the handler, and so does a
failing awaitable run synchronously when no loop is available. -/
theorem emit_status_exception_policy :
    (∀ (loopRunning : Bool) (d : String) (dn hd : Bool),
       emit_status loopRunning none d dn hd = .ok ())
  ∧ (∀ (loopRunning : Bool) (f : StatusData → Except PyErr EmitterReturn)
       (d : String) (dn hd : Bool),
       f ⟨d, dn, hd⟩ = .ok .plain →
       emit_status loopRunning (some f) d dn hd = .ok ())
  ∧ (∀ (f : StatusData → Except PyErr EmitterReturn) (d : String) (dn hd : Bool)
       (res : Except PyErr Unit),
       f ⟨d, dn, hd⟩ = .ok (.awaitable res) →
       emit_status true (some f) d dn hd = .ok ())
  ∧ (∀ (loopRunning : Bool) (f : StatusData → Except PyErr EmitterReturn)
       (d : String) (dn hd : Bool) (e : PyErr),
       f ⟨d, dn, hd⟩ = .error e →
       emit_status loopRunning (some f) d dn hd = .error e)
  ∧ (∀ (f : StatusData → Except PyErr EmitterReturn) (d : String) (dn hd : Bool)
       (e : PyErr),
       f ⟨d, dn, hd⟩ = .ok (.awaitable (.error e)) →
       emit_status false (some f) d dn hd = .error e) := by
  refine ⟨?_, ?_, ?_, ?_, ?_⟩
  · intro loopRunning d dn hd
    rfl
  · intro loopRunning f d dn hd hf
    simp [emit_status, hf]
  · intro f d dn hd res hf
    simp [emit_status, hf]
  · intro loopRunning f d dn hd e hf
    simp [emit_status, hf]
  · intro f d dn hd e hf
    simp [emit_status, hf]

/-- Witness for C4's amended theorem: each emitter shape exercised
concretely. -/
theorem emit_status_exception_policy_witness :
    emit_status true none "s" false false = .ok ()
  ∧ emit_status false (some fun _ => .ok .plain) "s" true false = .ok ()
  ∧ emit_status true
      (some fun _ => .ok (.awaitable (.error (.callbackError "late"))))
      "s" false true = .ok ()
  ∧ emit_status false (some fun _ => .error (.callbackError "sync"))
      "s" false false = .error (.callbackError "sync")
  ∧ emit_status false
      (some fun _ => .ok (.awaitable (.error (.callbackError "late"))))
      "s" false false = .error (.callbackError "late") :=
  ⟨emit_status_exception_policy.1 true "s" false false,
   emit_status_exception_policy.2.1 false (fun _ => .ok .plain) "s" true false rfl,
   emit_status_exception_policy.2.2.1
     (fun _ => .ok (.awaitable (.error (.callbackError "late")))) "s" false true
     (.error (.callbackError "late")) rfl,
   emit_status_exception_policy.2.2.2.1 false
     (fun _ => .error (.callbackError "sync")) "s" false false
     (.callbackError "sync") rfl,
   emit_status_exception_policy.2.2.2.2
     (fun _ => .ok (.awaitable (.error (.callbackError "late")))) "s" false false
     (.callbackError "late") rfl⟩

/-- C5: when the comment endpoint returns a 2xx-accepted status but a body
that is not valid JSON, `get_top_comments` does not raise — it emits the
start status and a completion status marked done and hidden, and returns
the empty list — while `search` on the same malformed body raises the JSON
decode error (no recovery path). -/
theorem decode_error_recovery :
    ∀ (v : Valves) (post_url num_comments : String) (resp : HttpResponse),
      ¬(400 ≤ resp.status ∧ resp.status < 600) → resp.body = none →
      (get_top_comments v post_url num_comments resp = .ok
        ⟨rstripSlashes post_url ++ ".json", resolveNumComments num_comments,
         [⟨"Fetching comments…", false, false⟩,
          ⟨"Could not fetch comments for " ++ post_url ++ " (invalid format).",
           true, true⟩], []⟩)
      ∧ (∀ (query sort time_window lim : String),
           search v query sort time_window lim resp = .error .jsonDecodeError) := by
  intro v post_url num_comments resp hs hb
  constructor
  · simp only [get_top_comments, (raiseForStatus_ok_iff resp).mpr hs, hb]
  · intro query sort time_window lim
    simp only [search, (raiseForStatus_ok_iff resp).mpr hs, hb]

/-- Witness for C5: a concrete 200 response with an undecodable body. -/
theorem decode_error_recovery_witness :
    (get_top_comments {} "https://x/comments/1/" "10" ⟨200, none⟩ = .ok
      ⟨"https://x/comments/1.json", 10,
       [⟨"Fetching comments…", false, false⟩,
        ⟨"Could not fetch comments for https://x/comments/1/ (invalid format).",
         true, true⟩], []⟩)
    ∧ search {} "cats" "relevance" "all" "-1" ⟨200, none⟩
        = .error .jsonDecodeError :=
  ⟨(decode_error_recovery {} "https://x/comments/1/" "10" ⟨200, none⟩
      (by decide) rfl).1,
   (decode_error_recovery {} "https://x/comments/1/" "10" ⟨200, none⟩
      (by decide) rfl).2 "cats" "relevance" "all" "-1"⟩

/-- C6 counterexample: a 304 response is non-2xx, yet neither handler
propagates a failure — `raise_for_status` only raises for 4xx/5xx, so both
handlers proceed and return successfully. -/
theorem http_error_counterexample :
    get_top_comments {} "https://x/comments/1/" "10" ⟨304, some (Json.arr [])⟩
      = .ok ⟨"https://x/comments/1.json", 10,
        [⟨"Fetching comments…", false, false⟩,
         ⟨"Returned 0 comments.", true, false⟩], []⟩
  ∧ search {} "cats" "relevance" "all" "-1" ⟨304, some (Json.obj [])⟩
      = .ok ⟨⟨"cats", "relevance", "all", 80, false, "link"⟩,
        [⟨"Searching Reddit for ‘cats’…", false, false⟩,
         ⟨"Retrieved 0 posts.", true, false⟩], []⟩ := ⟨rfl, rfl⟩

/-- C6 (amended): for every 4xx or 5xx HTTP response — exactly the statuses
`raise_for_status` rejects — both `search` and `get_top_comments` propagate
the HTTP error to the caller as a failure of the whole call (no retry, and
never a silent empty list); non-2xx statuses outside [400, 600), such as
304, do not raise. -/
theorem http_error_propagation :
    ∀ (v : Valves) (query sort time_window lim post_url num_comments : String)
      (resp : HttpResponse), 400 ≤ resp.status → resp.status < 600 →
      search v query sort time_window lim resp = .error (.httpError resp.status)
      ∧ get_top_comments v post_url num_comments resp
          = .error (.httpError resp.status) := by
  intro v query sort time_window lim post_url num_comments resp h4 h6
  constructor
  · simp only [search, raiseForStatus_err resp ⟨h4, h6⟩]
  · simp only [get_top_comments, raiseForStatus_err resp ⟨h4, h6⟩]

/-- Witness for C6's amended theorem: a concrete 404 fails both handlers. -/
theorem http_error_propagation_witness :
    search {} "cats" "relevance" "all" "5" ⟨404, some (Json.obj [])⟩
      = .error (.httpError 404)
    ∧ get_top_comments {} "https://x/comments/1/" "10"
        ⟨404, some (Json.arr [])⟩ = .error (.httpError 404) :=
  ⟨(http_error_propagation {} "cats" "relevance" "all" "5" "u" "10"
      ⟨404, some (Json.obj [])⟩ (by decide) (by decide)).1,
   (http_error_propagation {} "q" "relevance" "all" "5" "https://x/comments/1/"
      "10" ⟨404, some (Json.arr [])⟩ (by decide) (by decide)).2⟩

/-- C7: every post record returned by `search` has exactly the six fields
title, subreddit, url, score, num_comments, created_utc, the five
non-url fields passed through (nullable) from the upstream child's data,
and url formed by prefixing the site base URL `https://www.reddit.com` to
the upstream permalink — in particular, for a string (relative) permalink
the url is exactly the base followed by that permalink. -/
theorem post_record_shape :
    ∀ (v : Valves) (query sort time_window lim : String) (resp : HttpResponse)
      (data : Json) (children : List Json) (out : SearchOutcome)
      (i : Nat) (p : Post),
      resp.body = some data →
      searchChildren data = .ok children →
      search v query sort time_window lim resp = .ok out →
      out.posts[i]? = some p →
      ∃ c fs, children[i]? = some c
        ∧ pyGet c "data" (Json.obj []) = .ok (Json.obj fs)
        ∧ p = ⟨objGetD fs "title", objGetD fs "subreddit",
               "https://www.reddit.com" ++ pyStr (objGetD fs "permalink"),
               objGetD fs "score", objGetD fs "num_comments",
               objGetD fs "created_utc"⟩
        ∧ (∀ plink, objGetD fs "permalink" = Json.str plink →
             p.url = "https://www.reddit.com" ++ plink) := by
  intro v query sort time_window lim resp data children out i p hb hc h hip
  obtain ⟨-, data', children', hb', hc', hp, -, -⟩ :=
    search_ok_inv v query sort time_window lim resp out h
  rw [hb] at hb'
  cases hb'
  rw [hc] at hc'
  cases hc'
  obtain ⟨c, hcidx, hmk⟩ := postsFrom_ok_idx _ children 0 out.posts hp i p hip
  refine ⟨c, ?_⟩
  unfold mkPost at hmk
  split at hmk
  · cases hmk
  · rename_i fs hpd
    cases hmk
    exact ⟨fs, hcidx, hpd, rfl, fun plink hpl => by
      show "https://www.reddit.com" ++ pyStr (objGetD fs "permalink") = _
      rw [hpl]
      rfl⟩
  · cases hmk

/-- Witness for C7: the first post of the stub search run comes from the
first stub child, with pass-through fields and the rewritten url. -/
theorem post_record_shape_witness :
    ∃ c fs, ((List.range 8).map stubChild)[0]? = some c
      ∧ pyGet c "data" (Json.obj []) = .ok (Json.obj fs)
      ∧ stubPost 0 = ⟨objGetD fs "title", objGetD fs "subreddit",
          "https://www.reddit.com" ++ pyStr (objGetD fs "permalink"),
          objGetD fs "score", objGetD fs "num_comments",
          objGetD fs "created_utc"⟩
      ∧ (∀ plink, objGetD fs "permalink" = Json.str plink →
           (stubPost 0).url = "https://www.reddit.com" ++ plink) :=
  post_record_shape {} "cats" "relevance" "all" "5" stubSearchResp8
    (stubSearchBody 8) ((List.range 8).map stubChild) stubSearchOut5 0
    (stubPost 0) rfl rfl rfl rfl

/-- C8: `get_top_comments` includes a record for an upstream entry only if
that entry's kind tag is the string `"t1"`; an entry whose kind is anything
else — e.g. a `"more"` pagination stub — is skipped and never contributes a
record to the returned list. -/
theorem comments_only_t1 :
    (∀ (cnt : Int) (len : Nat) (child : Json) (rest : List Json) (kind : Json),
       pyGet child "kind" Json.null = .ok kind → kind ≠ Json.str "t1" →
       commentsFrom cnt len (child :: rest) = commentsFrom cnt len rest)
  ∧ (∀ (v : Valves) (post_url num_comments : String) (resp : HttpResponse)
       (payload : Json) (out : CommentsOutcome),
       resp.body = some payload →
       get_top_comments v post_url num_comments resp = .ok out →
       ∀ k ∈ out.comments, ∃ second children,
         pySubscript payload 1 = .ok second
         ∧ commentChildren second = .ok children
         ∧ ∃ c ∈ children, pyGet c "kind" Json.null = .ok (Json.str "t1")
             ∧ mkComment c = .ok k) := by
  constructor
  · intro cnt len child rest kind hk hne
    exact commentsFrom_skip cnt len child rest kind hk hne
  · intro v post_url num_comments resp payload out hb h k hk
    obtain ⟨-, -, -, hcase⟩ :=
      get_top_comments_ok_inv v post_url num_comments resp out h
    rcases hcase with ⟨hnone, -⟩ | ⟨payload', n, hb', -, hcase2⟩
    · rw [hb] at hnone
      cases hnone
    · rw [hb] at hb'
      cases hb'
      rcases hcase2 with ⟨-, second, children, hss, hcc, hcf⟩ | ⟨-, hempty⟩
      · obtain ⟨c, hcmem, ht1, hmk⟩ :=
          commentsFrom_ok_mem _ children 0 out.comments hcf k hk
        exact ⟨second, children, hss, hcc, c, hcmem, ht1, hmk⟩
      · rw [hempty] at hk
        simp at hk

/-- Witness for C8: a `"more"` stub is skipped by the loop, and in the stub
comment run the single returned record comes from the `t1` entry. -/
theorem comments_only_t1_witness :
    commentsFrom 10 0 [moreChild, t1Child] = commentsFrom 10 0 [t1Child]
  ∧ ∃ second children, pySubscript stubCommentsBody 1 = .ok second
      ∧ commentChildren second = .ok children
      ∧ ∃ c ∈ children, pyGet c "kind" Json.null = .ok (Json.str "t1")
          ∧ mkComment c = .ok stubComment :=
  ⟨comments_only_t1.1 10 0 moreChild [t1Child] (Json.str "more") rfl (by simp),
   comments_only_t1.2 {} "https://x/comments/1/" "10" stubCommentsResp
     stubCommentsBody stubCommentsOut rfl rfl stubComment
     (List.mem_singleton_self stubComment)⟩

/-- C9: when the comment endpoint's decoded payload is an array with fewer
than two elements (no comment section), `get_top_comments` returns the
empty list without raising. -/
theorem short_payload_empty :
    ∀ (v : Valves) (post_url num_comments : String) (resp : HttpResponse)
      (xs : List Json),
      ¬(400 ≤ resp.status ∧ resp.status < 600) →
      resp.body = some (Json.arr xs) → xs.length < 2 →
      ∃ out, get_top_comments v post_url num_comments resp = .ok out
        ∧ out.comments = [] := by
  intro v post_url num_comments resp xs hs hb hlen
  refine ⟨⟨rstripSlashes post_url ++ ".json", resolveNumComments num_comments,
    [⟨"Fetching comments…", false, false⟩,
     ⟨"Returned 0 comments.", true, false⟩], []⟩, ?_, rfl⟩
  simp only [get_top_comments, (raiseForStatus_ok_iff resp).mpr hs, hb, pyLen,
    if_neg (show ¬ 1 < xs.length by omega)]
  rfl

/-- Witness for C9: a concrete single-element payload. -/
theorem short_payload_empty_witness :
    ∃ out, get_top_comments {} "https://x/comments/1/" "10"
        ⟨200, some (Json.arr [Json.obj []])⟩ = .ok out
      ∧ out.comments = [] :=
  short_payload_empty {} "https://x/comments/1/" "10"
    ⟨200, some (Json.arr [Json.obj []])⟩ [Json.obj []]
    (by decide) rfl (by decide)

theorem searchChildren_no_data (fields : List (String × Json))
    (h : fields.lookup "data" = none) :
    searchChildren (Json.obj fields) = .ok [] := by
  simp [searchChildren, pyGet, h, pyIter]

theorem searchChildren_no_children (fields dfields : List (String × Json))
    (h1 : fields.lookup "data" = some (Json.obj dfields))
    (h2 : dfields.lookup "children" = none) :
    searchChildren (Json.obj fields) = .ok [] := by
  simp [searchChildren, pyGet, h1, h2, pyIter]

theorem commentChildren_no_data (sfields : List (String × Json))
    (h : sfields.lookup "data" = none) :
    commentChildren (Json.obj sfields) = .ok [] := by
  simp [commentChildren, pyGet, h, pyIter]

theorem commentChildren_no_children (sfields dfields : List (String × Json))
    (h1 : sfields.lookup "data" = some (Json.obj dfields))
    (h2 : dfields.lookup "children" = none) :
    commentChildren (Json.obj sfields) = .ok [] := by
  simp [commentChildren, pyGet, h1, h2, pyIter]

theorem search_ok_of_children_nil (v : Valves)
    (query sort time_window lim : String) (resp : HttpResponse) (data : Json)
    (hs : ¬(400 ≤ resp.status ∧ resp.status < 600))
    (hb : resp.body = some data) (hc : searchChildren data = .ok []) :
    search v query sort time_window lim resp = .ok
      ⟨⟨query, sort, time_window, resolveLimit lim v.max_results, false, "link"⟩,
       [⟨"Searching Reddit for ‘" ++ query ++ "’…", false, false⟩,
        ⟨"Retrieved 0 posts.", true, false⟩], []⟩ := by
  simp only [search, (raiseForStatus_ok_iff resp).mpr hs, hb, hc, postsFrom]
  rfl

theorem gtc_ok_of_children_nil (v : Valves) (post_url num_comments : String)
    (resp : HttpResponse) (x second : Json) (rest : List Json)
    (hs : ¬(400 ≤ resp.status ∧ resp.status < 600))
    (hb : resp.body = some (Json.arr (x :: second :: rest)))
    (hc : commentChildren second = .ok []) :
    get_top_comments v post_url num_comments resp = .ok
      ⟨rstripSlashes post_url ++ ".json", resolveNumComments num_comments,
       [⟨"Fetching comments…", false, false⟩,
        ⟨"Returned 0 comments.", true, false⟩], []⟩ := by
  simp only [get_top_comments, (raiseForStatus_ok_iff resp).mpr hs, hb, pyLen,
    if_pos (show 1 < (x :: second :: rest).length by simp),
    pySubscript, List.getElem?_cons_succ, List.getElem?_cons_zero, hc,
    commentsFrom]
  rfl

/-- C10 (implicit): both handlers tolerate structurally incomplete but
valid JSON at every extraction step — a search response object lacking
`"data"` or whose data lacks `"children"` yields no posts without raising;
a child lacking `"data"` yields a record of nulls without raising (its url
becomes the base URL followed by `"None"`); a comment payload whose second
element lacks `"data"` or whose data lacks `"children"` yields no comments
without raising — every lookup uses a defaulted access. -/
theorem defensive_defaulted_access :
    (∀ (v : Valves) (query sort time_window lim : String) (resp : HttpResponse)
       (fields : List (String × Json)),
       ¬(400 ≤ resp.status ∧ resp.status < 600) →
       resp.body = some (Json.obj fields) → fields.lookup "data" = none →
       ∃ out, search v query sort time_window lim resp = .ok out
         ∧ out.posts = [])
  ∧ (∀ (v : Valves) (query sort time_window lim : String) (resp : HttpResponse)
       (fields dfields : List (String × Json)),
       ¬(400 ≤ resp.status ∧ resp.status < 600) →
       resp.body = some (Json.obj fields) →
       fields.lookup "data" = some (Json.obj dfields) →
       dfields.lookup "children" = none →
       ∃ out, search v query sort time_window lim resp = .ok out
         ∧ out.posts = [])
  ∧ (∀ (fields : List (String × Json)), fields.lookup "data" = none →
       mkPost (Json.obj fields) = .ok
         ⟨Json.null, Json.null, "https://www.reddit.comNone",
          Json.null, Json.null, Json.null⟩)
  ∧ (∀ (v : Valves) (post_url num_comments : String) (resp : HttpResponse)
       (x : Json) (sfields : List (String × Json)) (rest : List Json),
       ¬(400 ≤ resp.status ∧ resp.status < 600) →
       resp.body = some (Json.arr (x :: Json.obj sfields :: rest)) →
       sfields.lookup "data" = none →
       ∃ out, get_top_comments v post_url num_comments resp = .ok out
         ∧ out.comments = [])
  ∧ (∀ (v : Valves) (post_url num_comments : String) (resp : HttpResponse)
       (x : Json) (sfields dfields : List (String × Json)) (rest : List Json),
       ¬(400 ≤ resp.status ∧ resp.status < 600) →
       resp.body = some (Json.arr (x :: Json.obj sfields :: rest)) →
       sfields.lookup "data" = some (Json.obj dfields) →
       dfields.lookup "children" = none →
       ∃ out, get_top_comments v post_url num_comments resp = .ok out
         ∧ out.comments = []) := by
  refine ⟨?_, ?_, ?_, ?_, ?_⟩
  · intro v query sort time_window lim resp fields hs hb h
    exact ⟨_, search_ok_of_children_nil v query sort time_window lim resp _
      hs hb (searchChildren_no_data fields h), rfl⟩
  · intro v query sort time_window lim resp fields dfields hs hb h1 h2
    exact ⟨_, search_ok_of_children_nil v query sort time_window lim resp _
      hs hb (searchChildren_no_children fields dfields h1 h2), rfl⟩
  · intro fields h
    simp [mkPost, pyGet, h, objGetD, pyStr]
  · intro v post_url num_comments resp x sfields rest hs hb h
    exact ⟨_, gtc_ok_of_children_nil v post_url num_comments resp x _ rest
      hs hb (commentChildren_no_data sfields h), rfl⟩
  · intro v post_url num_comments resp x sfields dfields rest hs hb h1 h2
    exact ⟨_, gtc_ok_of_children_nil v post_url num_comments resp x _ rest
      hs hb (commentChildren_no_children sfields dfields h1 h2), rfl⟩

/-- Witness for C10: concrete incomplete bodies for each of the five
defaulted-access shapes. -/
theorem defensive_defaulted_access_witness :
    (∃ out, search {} "q" "relevance" "all" "-1"
        ⟨200, some (Json.obj [])⟩ = .ok out ∧ out.posts = [])
  ∧ (∃ out, search {} "q" "relevance" "all" "-1"
        ⟨200, some (Json.obj [("data", Json.obj [])])⟩ = .ok out
      ∧ out.posts = [])
  ∧ mkPost (Json.obj []) = .ok
      ⟨Json.null, Json.null, "https://www.reddit.comNone",
       Json.null, Json.null, Json.null⟩
  ∧ (∃ out, get_top_comments {} "https://x/comments/1/" "10"
        ⟨200, some (Json.arr [Json.obj [], Json.obj []])⟩ = .ok out
      ∧ out.comments = [])
  ∧ (∃ out, get_top_comments {} "https://x/comments/1/" "10"
        ⟨200, some (Json.arr [Json.obj [],
          Json.obj [("data", Json.obj [])]])⟩ = .ok out
      ∧ out.comments = []) :=
  ⟨defensive_defaulted_access.1 {} "q" "relevance" "all" "-1"
     ⟨200, some (Json.obj [])⟩ [] (by decide) rfl rfl,
   defensive_defaulted_access.2.1 {} "q" "relevance" "all" "-1"
     ⟨200, some (Json.obj [("data", Json.obj [])])⟩
     [("data", Json.obj [])] [] (by decide) rfl rfl rfl,
   defensive_defaulted_access.2.2.1 [] rfl,
   defensive_defaulted_access.2.2.2.1 {} "https://x/comments/1/" "10"
     ⟨200, some (Json.arr [Json.obj [], Json.obj []])⟩
     (Json.obj []) [] [] (by decide) rfl rfl,
   defensive_defaulted_access.2.2.2.2 {} "https://x/comments/1/" "10"
     ⟨200, some (Json.arr [Json.obj [], Json.obj [("data", Json.obj [])]])⟩
     (Json.obj []) [("data", Json.obj [])] [] [] (by decide) rfl rfl rfl⟩

end Reddit
